import Mathlib

/-!
# Verification of `Scripts/canoe_batch_generator.py`

A shallow embedding of the CANoe XML batch generator.  The Python program
builds an in-memory element tree (`xml.etree.ElementTree`) using the global
`random` stream, then serialises it.  We model:

* the pseudo-random stream (`random.random`, `random.randint`,
  `random.uniform`, `random.choice`) as an explicit state `RState` carrying
  an arbitrary rational-valued stream and a cursor; `random.random()` is the
  fractional part of the next stream value (hence an arbitrary value in
  `[0, 1)`), `random.randint a b` reduces the next stream value into
  `[a, b]`, and `random.uniform a b = a + (b - a) * random()` exactly as in
  CPython;
* `random.seed k` (the Mersenne-Twister reseed) abstractly as replacing the
  whole state by a stream determined by `k` alone;
* the element tree as the inductive `XElem` (tag, attributes in insertion
  order, optional text, children).  Numeric `timestamp` attributes are
  stored as the rational value of the serialised one-decimal string
  (`f'{t:.1f}'` is modelled by `fmt1`); all other attributes are strings.

Serialisation (`ElementTree.write` after the `indent` helper) is a
deterministic function of the finished tree, so equality of trees models
byte-identical serialised output.
-/

/-- State of the global `random` module: an arbitrary stream of rationals
and a cursor.  Each primitive draw consumes one stream position. -/
structure RState where
  stream : ℕ → ℚ
  idx : ℕ

namespace RState

/-- Advance the cursor by one position. -/
def succ (s : RState) : RState := ⟨s.stream, s.idx + 1⟩

end RState

/-- `random.random()`: an arbitrary value in `[0, 1)`, modelled as the
fractional part of the next stream value. -/
def pyRandom (s : RState) : ℚ × RState := (Int.fract (s.stream s.idx), s.succ)

/-- The next stream value reduced to a natural number; feeds `randint` and
`choice`, which draw from discrete ranges. -/
def rawNat (s : RState) : ℕ × RState := (⌊s.stream s.idx⌋.toNat, s.succ)

/-- `random.randint a b`: an arbitrary integer in `[a, b]` (for `a ≤ b`),
modelled by reducing one raw draw modulo the range size. -/
def pyRandint (a b : ℕ) (s : RState) : ℕ × RState :=
  let (n, s') := rawNat s
  (a + n % (b + 1 - a), s')

/-- `random.uniform a b = a + (b-a) * random()` (CPython's definition). -/
def pyUniform (a b : ℚ) (s : RState) : ℚ × RState :=
  let (r, s') := pyRandom s
  (a + (b - a) * r, s')

/-- `random.choice l`: an arbitrary element of `l`, modelled by indexing
with one raw draw modulo the length (`dflt` is returned for `[]`;
the program only calls it on non-empty literal lists). -/
def pyChoice {α : Type} (l : List α) (dflt : α) (s : RState) : α × RState :=
  let (n, s') := rawNat s
  (l.getD (n % l.length) dflt, s')

/-- `random.seed k`: the Mersenne Twister is reseeded, so the subsequent
stream is a function of `k` alone.  The mixing function is irrelevant to the
claims; only its independence from the prior state matters. -/
def seedState (k : ℕ) : RState :=
  ⟨fun i => (((k + 1) * (i + 2)) % 1000003 : ℕ) / 1000003, 0⟩

/-- Value of an XML attribute: timestamps are kept as the rational value of
their serialised one-decimal form, everything else as the literal string. -/
inductive AVal where
  | str (v : String)
  | num (q : ℚ)
  deriving DecidableEq, Repr

/-- An element of the tree built with `xml.etree.ElementTree`: tag,
attributes in insertion order, optional text, children in append order. -/
inductive XElem where
  | mk (tag : String) (attrs : List (String × AVal)) (text : Option String)
      (children : List XElem)

namespace XElem

def tag : XElem → String
  | .mk t _ _ _ => t

def attrs : XElem → List (String × AVal)
  | .mk _ a _ _ => a

def text : XElem → Option String
  | .mk _ _ x _ => x

def children : XElem → List XElem
  | .mk _ _ _ c => c

/-- First attribute with the given key, if any. -/
def getAttr (e : XElem) (k : String) : Option AVal :=
  (e.attrs.find? (fun p => p.1 = k)).map Prod.snd

end XElem

/-- `f'{t:.1f}'`: the serialised one-decimal rendering of a float, modelled
by its rational value (round-half-up; the tie-breaking convention is
irrelevant to every claim, which only uses monotonicity). -/
def fmt1 (q : ℚ) : ℚ := (⌊10 * q + 1 / 2⌋ : ℚ) / 10

/-- `generate_random_verdict` (lines 18–26). -/
def generate_random_verdict (s : RState) : String × RState :=
  let (r, s') := pyRandom s
  (if r < 6 / 10 then "pass" else if r < 85 / 100 then "fail" else "inconclusive", s')

/-- The `descriptions` literal of `generate_test_step` (lines 46–54). -/
def stepDescriptions : List String :=
  ["Initialize diagnostic session", "Send request frame", "Wait for response",
   "Verify response data", "Check timing constraints", "Validate checksum",
   "Read DTC memory", "Clear DTC status", "Switch to extended session",
   "Security access request", "Read data by identifier", "Write data by identifier",
   "ECU reset", "Communication control", "Tester present", "Control DTC setting",
   "Check voltage level", "Measure temperature", "Validate signal timing",
   "Check bus load", "Verify node availability"]

/-- The `services` literal of `generate_test_step` (lines 59–65). -/
def services : List (String × String) :=
  [("ReadDataByIdentifier", "0x22"), ("WriteDataByIdentifier", "0x2E"),
   ("ReadDTCInformation", "0x19"), ("ClearDiagnosticInformation", "0x14"),
   ("DiagnosticSessionControl", "0x10"), ("ECUReset", "0x11"),
   ("SecurityAccess", "0x27"), ("CommunicationControl", "0x28"),
   ("TesterPresent", "0x3E"), ("ControlDTCSetting", "0x85")]

/-- The `error_codes` literal of `generate_test_step` (lines 67–72). -/
def errorCodes : List (String × String × String) :=
  [("7F 22 78", "0x7F2278", "Response pending timeout"),
   ("7F 22 31", "0x7F2231", "Request out of range"),
   ("7F 27 35", "0x7F2735", "Invalid key"),
   ("7F 31 22", "0x7F3122", "Conditions not correct")]

/-- Python slice `s[-2:]`: the last two characters. -/
def strTakeRight (n : ℕ) (s : String) : String :=
  ⟨s.data.drop (s.data.length - n)⟩

/-- Python slice `s[1:]`: drop the first character. -/
def strDrop1 (s : String) : String := ⟨s.data.drop 1⟩

/-- Zero-padded decimal formatting `f'{n:0wd}'`: for `n < 10^w` exactly the
`w` low-order digits; wider numbers print in full, as in Python. -/
def padNum (w n : ℕ) : String :=
  if n < 10 ^ w then
    ⟨((List.range w).reverse.map (fun i => Char.ofNat (48 + n / 10 ^ i % 10)))⟩
  else
    Nat.repr n

/-- The `rows_data` table construction of `generate_test_step`
(lines 75–87): the `tabularinfo` element with its 5 rows of 3 cells. -/
def mkTabular (svc : String × String) (ec : String × String × String) : XElem :=
  let rows_data : List (List String) :=
    [["Service", svc.1, svc.2],
     ["Request", svc.2 ++ " F1 90", "0x" ++ strDrop1 svc.2 ++ "F190"],
     ["Expected", "62 F1 90 AB CD EF", "0x62F190ABCDEF"],
     ["Actual", ec.1, ec.2.1],
     ["Error", ec.2.2, "NRC " ++ strTakeRight 2 ec.1]]
  .mk "tabularinfo" [] none
    (rows_data.map (fun row =>
      .mk "row" [] none (row.map (fun c => .mk "cell" [] (some c) []))))

/-- A Gregorian calendar date, for the model of `datetime`. -/
structure PyDate where
  year : ℕ
  month : ℕ
  day : ℕ

/-- Whether `y` is a Gregorian leap year (`calendar.isleap`). -/
def isLeap (y : ℕ) : Bool := y % 4 = 0 && (y % 100 ≠ 0 || y % 400 = 0)

/-- Days in month `m` of year `y`. -/
def daysInMonth (y m : ℕ) : ℕ :=
  if m = 2 then (if isLeap y then 29 else 28)
  else if m = 4 ∨ m = 6 ∨ m = 9 ∨ m = 11 then 30
  else 31

/-- The day after `d`. -/
def nextDay (d : PyDate) : PyDate :=
  if d.day < daysInMonth d.year d.month then ⟨d.year, d.month, d.day + 1⟩
  else if d.month < 12 then ⟨d.year, d.month + 1, 1⟩
  else ⟨d.year + 1, 1, 1⟩

/-- Add `n` days to a date. -/
def addDays (d : PyDate) : ℕ → PyDate
  | 0 => d
  | n + 1 => addDays (nextDay d) n

/-- A `datetime`: a date plus the second-of-day. -/
structure PyDateTime where
  date : PyDate
  sod : ℕ

/-- `dt + timedelta(seconds=n)`. -/
def addSeconds (dt : PyDateTime) (n : ℕ) : PyDateTime :=
  let total := dt.sod + n
  ⟨addDays dt.date (total / 86400), total % 86400⟩

/-- `dt + timedelta(minutes=n)`. -/
def addMinutes (dt : PyDateTime) (n : ℕ) : PyDateTime := addSeconds dt (n * 60)

/-- `dt.strftime('%Y-%m-%d %H:%M:%S')`. -/
def fmtDateTime (dt : PyDateTime) : String :=
  padNum 4 dt.date.year ++ "-" ++ padNum 2 dt.date.month ++ "-" ++
    padNum 2 dt.date.day ++ " " ++ padNum 2 (dt.sod / 3600) ++ ":" ++
    padNum 2 (dt.sod % 3600 / 60) ++ ":" ++ padNum 2 (dt.sod % 60)

/-- `generate_test_step` (lines 29–89).  Draw order follows the source:
level, type, (result draw only when the case verdict is `'fail'`, because
`and` short-circuits), description, (table draws only when the step failed),
and the final cursor increment `uniform(0.5, 2.0)`. -/
def generate_test_step (timestamp : ℚ) (step_num : ℕ) (verdict_result : String)
    (s : RState) : XElem × ℚ × RState :=
  let (lvl, s) := pyRandint 0 2 s
  let (ty, s) := pyChoice ["user", "auto", "system"] "user" s
  let (step_result, s) :=
    if verdict_result = "pass" then ("pass", s)
    else if verdict_result = "fail" then
      let (r, s) := pyRandom s
      (if r < 7 / 10 then "fail" else "pass", s)
    else ("pass", s)
  let (desc, s) := pyChoice stepDescriptions "" s
  let (tab, s) :=
    if step_result = "fail" then
      let (r, s) := pyRandom s
      if r < 1 / 2 then
        let (svc, s) := pyChoice services ("", "") s
        let (ec, s) := pyChoice errorCodes ("", "", "") s
        ((some (mkTabular svc ec) : Option XElem), s)
      else (none, s)
    else (none, s)
  let (u, s) := pyUniform (1 / 2) 2 s
  (.mk "teststep"
     [("timestamp", .num (fmt1 timestamp)), ("level", .str (Nat.repr lvl)),
      ("type", .str ty), ("ident", .str ("TS-" ++ padNum 3 step_num)),
      ("result", .str step_result)]
     (some desc)
     (match tab with | some t => [t] | none => []),
   timestamp + u, s)

/-- Python `int(x)` on a rational: truncation toward zero
(`Int` division in Lean truncates toward zero). -/
def ratTrunc (q : ℚ) : ℤ := q.num / (q.den : ℤ)

/-- The `test_types` literal of `generate_test_case` (lines 100–101). -/
def testTypes : List String :=
  ["UDS", "DTC", "CAN", "Diagnostic", "Communication", "Memory",
   "Security", "Session", "Reset", "Voltage", "Temperature", "Timing"]

/-- The `test_actions` literal of `generate_test_case` (lines 102–103). -/
def testActions : List String :=
  ["Read", "Write", "Check", "Verify", "Validate", "Test",
   "Monitor", "Control", "Initialize", "Reset"]

/-- The `test_targets` literal of `generate_test_case` (lines 104–105). -/
def testTargets : List String :=
  ["DID", "DTC", "Memory", "Status", "Data", "Signal",
   "Frame", "Service", "Session", "Access"]

/-- The step loop of `generate_test_case` (lines 114–116): build `k` steps
numbered from `num`, threading cursor and random state. -/
def genSteps : ℕ → ℕ → ℚ → String → RState → List XElem × ℚ × RState
  | 0, _, t, _, s => ([], t, s)
  | k + 1, num, t, v, s =>
    let st := generate_test_step t num v s
    let rest := genSteps k (num + 1) st.2.1 v st.2.2
    (st.1 :: rest.1, rest.2.1, rest.2.2)

/-- `generate_test_case` (lines 92–122).  `group_name` is accepted and
unused, as in the source.  The calendar `starttime` uses the fixed base
`2024-01-25 10:00:00` plus `int(timestamp)` seconds (the generator only
produces non-negative cursors). -/
def generate_test_case (timestamp : ℚ) (case_num : ℕ) (group_name : String)
    (s : RState) : XElem × ℚ × RState :=
  let _ := group_name
  let start_time := addSeconds ⟨⟨2024, 1, 25⟩, 10 * 3600⟩ (ratTrunc timestamp).toNat
  let (t1, s) := pyChoice testTypes "" s
  let (t2, s) := pyChoice testActions "" s
  let (t3, s) := pyChoice testTargets "" s
  let titleText := t1 ++ "_" ++ t2 ++ "_" ++ t3 ++ "_" ++ padNum 4 case_num
  let (verdict_result, s) := generate_random_verdict s
  let (num_steps, s) := pyRandint 3 8 s
  let stepsR := genSteps num_steps 1 (timestamp + 1 / 2) verdict_result s
  let ct := stepsR.2.1
  let verdict : XElem :=
    .mk "verdict" [("timestamp", .num (fmt1 ct)), ("result", .str verdict_result)] none []
  let (u, s') := pyUniform 1 3 stepsR.2.2
  (.mk "testcase"
     [("timestamp", .num (fmt1 timestamp)), ("starttime", .str (fmtDateTime start_time))]
     none (.mk "title" [] (some titleText) [] :: stepsR.1 ++ [verdict]),
   ct + u, s')

/-- The `skip_reasons` literal of `generate_skipped_test` (lines 129–133). -/
def skipReasons : List String :=
  ["Prerequisites_Not_Met", "Environment_Not_Ready", "HW_Not_Available",
   "SW_Version_Mismatch", "Configuration_Missing", "Dependency_Failed",
   "Timeout_Prevention", "Manual_Execution_Only", "Not_Applicable"]

/-- `generate_skipped_test` (lines 125–135).  `timestamp` is accepted and
unused, as in the source; the element carries no timestamp attribute. -/
def generate_skipped_test (timestamp : ℚ) (skip_num : ℕ) (s : RState) :
    XElem × RState :=
  let _ := timestamp
  let (reason, s) := pyChoice skipReasons "" s
  (.mk "skipped" [] none
     [.mk "title" [] (some ("Skipped_" ++ reason ++ "_" ++ padNum 4 skip_num)) []], s)

/-- The flat population loop of `generate_test_group` (lines 168–176):
`k` positions numbered from `num`; each is a skipped test with probability
0.1 (no cursor advance from the element itself) or a test case, followed by
a `uniform(1.0, 5.0)` gap. -/
def genFlat : ℕ → ℕ → ℚ → String → RState → List XElem × ℚ × RState
  | 0, _, t, _, s => ([], t, s)
  | k + 1, num, t, gname, s =>
    let (r, s) := pyRandom s
    if r < 1 / 10 then
      let (sk, s) := generate_skipped_test t num s
      let (u, s) := pyUniform 1 5 s
      let rest := genFlat k (num + 1) (t + u) gname s
      (sk :: rest.1, rest.2.1, rest.2.2)
    else
      let tc := generate_test_case t num gname s
      let (u, s) := pyUniform 1 5 tc.2.2
      let rest := genFlat k (num + 1) (tc.2.1 + u) gname s
      (tc.1 :: rest.1, rest.2.1, rest.2.2)

/-- A group identifier: an `int` at top level, a `str` path when nested
(`group_num` is duck-typed in the source). -/
abbrev GroupId := ℕ ⊕ String

/-- Python `str(group_num)`. -/
def groupPlainStr : GroupId → String
  | .inl n => Nat.repr n
  | .inr v => v

/-- Lines 147–150: `f'{group_num:03d}'` for ints, `str(group_num)` else. -/
def groupNumStr : GroupId → String
  | .inl n => padNum 3 n
  | .inr v => v

/-- Line 161: `f'{group_num}_{nested_num}'` — the identifier of a nested
child group is the parent identifier and the child index joined by an
underscore. -/
def childGroupId (group_num : GroupId) (nested_num : ℕ) : String :=
  groupPlainStr group_num ++ "_" ++ Nat.repr nested_num

/-- The `group_types` literal of `generate_test_group` (lines 143–144). -/
def groupTypes : List String :=
  ["Communication", "Diagnostic", "Network", "Memory", "Security",
   "Session", "DTC", "UDS", "CAN", "System", "Integration", "Functional"]

/-- The `group_areas` literal of `generate_test_group` (line 145). -/
def groupAreas : List String :=
  ["Tests", "Checks", "Validation", "Scenarios", "Cases", "Suite"]

/-- Line 152: `"  " * (level - 1)`. -/
def indentOf (level : ℕ) : String := String.join (List.replicate (level - 1) "  ")

/-- The flat tail of `generate_test_group` (lines 167–177): draw a
population size in `[3, 15]` and build the flat children. -/
def genGroupFlatTail (titleText : String) (title : XElem) (current : ℚ)
    (s : RState) : XElem × ℚ × RState :=
  let (num_tests, s) := pyRandint 3 15 s
  let cs := genFlat num_tests 1 current titleText s
  (.mk "testgroup" [] none (title :: cs.1), cs.2.1, cs.2.2)

/-- The nested-children loop of `generate_test_group` (lines 159–166):
`count` children numbered from `idx`, each produced by `gen` (the group
generator one level down) with an underscore-joined identifier, followed by
a `uniform(2.0, 5.0)` gap between siblings. -/
def genChildrenAux (gen : ℚ → GroupId → RState → XElem × ℚ × RState) :
    ℕ → ℕ → GroupId → ℚ → RState → List XElem × ℚ × RState
  | 0, _, _, t, s => ([], t, s)
  | k + 1, idx, group_num, t, s =>
    let cid : GroupId := Sum.inr (childGroupId group_num idx)
    let g := gen t cid s
    let (u, s') := pyUniform 2 5 g.2.2
    let rest := genChildrenAux gen k (idx + 1) group_num (g.2.1 + u) s'
    (g.1 :: rest.1, rest.2.1, rest.2.2)

/-- `generate_test_group` (lines 138–178), with an explicit recursion
budget `fuel` as the structural-recursion measure.  The nested branch is
taken exactly when `nested`, `level < max_level` and a fresh `random()`
draw is below 0.3 (`and` short-circuits, so the draw happens only when the
first two conjuncts hold).  At budget 0 the nested branch is cut off; this
cannot matter whenever `max_level ≤ level + fuel`, which the wrapper
`generate_test_group` guarantees, because the nesting guard then fails at
budget 0 and both branches agree. -/
def genGroupF : (fuel : ℕ) → ℚ → GroupId → ℕ → ℕ → Bool → RState →
    XElem × ℚ × RState
  | 0, timestamp, group_num, level, max_level, nested, s =>
    let (gt, s) := pyChoice groupTypes "" s
    let (ga, s) := pyChoice groupAreas "" s
    let titleText := indentOf level ++ "Level" ++ Nat.repr level ++ "_" ++ gt ++
      "_" ++ ga ++ "_" ++ groupNumStr group_num
    let title : XElem := .mk "title" [] (some titleText) []
    let current := timestamp + 1
    let (_, s) :=
      if nested = true ∧ level < max_level then
        let (r, s') := pyRandom s
        (decide (r < 3 / 10), s')
      else (false, s)
    genGroupFlatTail titleText title current s
  | f + 1, timestamp, group_num, level, max_level, nested, s =>
    let (gt, s) := pyChoice groupTypes "" s
    let (ga, s) := pyChoice groupAreas "" s
    let titleText := indentOf level ++ "Level" ++ Nat.repr level ++ "_" ++ gt ++
      "_" ++ ga ++ "_" ++ groupNumStr group_num
    let title : XElem := .mk "title" [] (some titleText) []
    let current := timestamp + 1
    let (has_nested, s) :=
      if nested = true ∧ level < max_level then
        let (r, s') := pyRandom s
        (decide (r < 3 / 10), s')
      else (false, s)
    if has_nested then
      let (num_nested, s) := pyRandint 1 3 s
      let cs := genChildrenAux
        (fun t g s' => genGroupF f t g (level + 1) max_level nested s')
        num_nested 1 group_num current s
      (.mk "testgroup" [] none (title :: cs.1), cs.2.1, cs.2.2)
    else genGroupFlatTail titleText title current s

/-- `generate_test_group` as called by the program: the budget
`max_level + 1 - level` satisfies `max_level ≤ level + fuel` for every
`level` and `max_level`, so the fuel guard in `genGroupF` never bites. -/
def generate_test_group (timestamp : ℚ) (group_num : GroupId)
    (level max_level : ℕ) (nested : Bool) (s : RState) : XElem × ℚ × RState :=
  genGroupF (max_level + 1 - level) timestamp group_num level max_level nested s

/-- The top-level group loop of `generate_test_module` (lines 207–210):
`k` groups numbered from `num`, each at depth 1 with the default
`max_level = 3`, followed by a `uniform(5.0, 15.0)` gap. -/
def genGroups : ℕ → ℕ → ℚ → Bool → RState → List XElem × ℚ × RState
  | 0, _, t, _, s => ([], t, s)
  | k + 1, num, t, nested, s =>
    let g := generate_test_group t (Sum.inl num) 1 3 nested s
    let (u, s') := pyUniform 5 15 g.2.2
    let rest := genGroups k (num + 1) (g.2.1 + u) nested s'
    (g.1 :: rest.1, rest.2.1, rest.2.2)

/-- `generate_test_module` (lines 181–230), returning the finished element
tree (the function then pretty-prints and serialises it, both deterministic
functions of the tree, so tree equality models byte-identical output).
`random.seed(seed)` replaces the ambient random state when a seed is given.
Python's `range(1, num_groups + 1)` has `max 0 num_groups` elements, which
is `Int.toNat num_groups`.  The root `timestamp` attribute is the literal
`'0.0'`, i.e. the one-decimal rendering of 0. -/
def generate_test_module (num_groups : ℤ) (nested : Bool) (seed : Option ℕ)
    (file_index : ℕ) (s0 : RState) : XElem :=
  let s := match seed with | some k => seedState k | none => s0
  let time_str := fmtDateTime (addMinutes ⟨⟨2026, 2, 10⟩, 10 * 3600⟩ file_index)
  let (mid, s) := pyRandint 10000000 99999999 s
  let testsetup : XElem := .mk "testsetup" [] none
    [.mk "xinfo" [("name", .str "Test Module Name")] none
      [.mk "description" []
        (some ("Stress Test Module with " ++ toString num_groups ++ " Groups")) []]]
  let groups := (genGroups (Int.toNat num_groups) 1 10 nested s).1
  .mk "testmodule"
    [("starttime", .str time_str), ("timestamp", .num 0),
     ("verdicts", .str "2_basic"),
     ("measurementid", .str (padNum 8 mid ++ "-ffff-4444-82aa-af7cs55583"))]
    none (testsetup :: groups)

/-! ## Observation helpers -/

/-- The empty placeholder element, used as a default for list indexing. -/
def emptyElem : XElem := .mk "" [] none []

/-- The `result` attribute of an element, when it is a string. -/
def stepResult (e : XElem) : Option String :=
  match e.getAttr "result" with
  | some (.str v) => some v
  | _ => none

/-- The random state after the `level` and `type` draws of
`generate_test_step`. -/
def afterStepHeader (s : RState) : RState :=
  (pyChoice ["user", "auto", "system"] "user" (pyRandint 0 2 s).2).2

/-- The random state after the step-result computation of
`generate_test_step` (a draw is consumed only for a failing case verdict). -/
def afterStepResult (v : String) (s : RState) : RState :=
  if v = "fail" then (pyRandom (afterStepHeader s)).2 else afterStepHeader s

/-- The fresh `random()` draw that decides whether a failing step gets a
`tabularinfo` table (line 57), located after the description choice. -/
def tabularDraw (v : String) (s : RState) : ℚ :=
  (pyRandom (pyChoice stepDescriptions "" (afterStepResult v s)).2).1

/-- Text of the last cell of the last row of a table element. -/
def errRowLastCell (tab : XElem) : Option String :=
  ((tab.children.getLastD emptyElem).children.getLastD emptyElem).text

/-- Text of the middle cell of the fourth row of a table element: in a
failure-detail table this is the `Actual` row's response-bytes field
(`actual_resp`, line 79). -/
def actualRespCell (tab : XElem) : Option String :=
  ((tab.children.getD 3 emptyElem).children.getD 1 emptyElem).text

/-- Text of the `title` child of a group (its first child). -/
def groupTitleText (e : XElem) : Option String :=
  (e.children.headD emptyElem).text

/-- Text of the `description` element nested in the first child of the
module root (`testsetup/xinfo/description`). -/
def descriptionText (root : XElem) : Option String :=
  (((root.children.getD 0 emptyElem).children.getD 0 emptyElem).children.getD 0
    emptyElem).text

/-- Whether every character of `s` is a decimal digit. -/
def isDigitStr (s : String) : Bool :=
  s.data.all (fun c => 48 ≤ c.toNat && c.toNat ≤ 57)

/-! ## Claims -/

/-- **C1.** For every fixed seed value, group count, nesting flag and file
index, two independent invocations of `generate_test_module` — i.e. runs
from two arbitrary ambient random states — produce identical documents
(hence byte-identical serialised output, serialisation being a
deterministic function of the tree): `random.seed(seed)` resets the stream
before any draw, so the prior state is discarded. -/
theorem claim_C1 (num_groups : ℤ) (nested : Bool) (k : ℕ) (file_index : ℕ)
    (s t : RState) :
    generate_test_module num_groups nested (some k) file_index s =
      generate_test_module num_groups nested (some k) file_index t := rfl

/-- **C3.** `generate_random_verdict` draws one uniform value `r ∈ [0, 1)`
and returns `'pass'` exactly when `r < 0.60`, `'fail'` exactly when
`0.60 ≤ r < 0.85`, and `'inconclusive'` exactly otherwise. -/
theorem claim_C3 (s : RState) :
    0 ≤ (pyRandom s).1 ∧ (pyRandom s).1 < 1 ∧
    ((generate_random_verdict s).1 = "pass" ↔ (pyRandom s).1 < 6 / 10) ∧
    ((generate_random_verdict s).1 = "fail" ↔
      (6 / 10 ≤ (pyRandom s).1 ∧ (pyRandom s).1 < 85 / 100)) ∧
    ((generate_random_verdict s).1 = "inconclusive" ↔ 85 / 100 ≤ (pyRandom s).1) := by
  refine ⟨Int.fract_nonneg _, Int.fract_lt_one _, ?_, ?_, ?_⟩ <;>
      simp only [generate_random_verdict, pyRandom]
  · by_cases h6 : Int.fract (s.stream s.idx) < 6 / 10
    · simp [h6]
    · by_cases h8 : Int.fract (s.stream s.idx) < 85 / 100 <;> simp [h6, h8]
  · by_cases h6 : Int.fract (s.stream s.idx) < 6 / 10
    · simp [h6, not_le.mpr h6]
    · by_cases h8 : Int.fract (s.stream s.idx) < 85 / 100
      · simp [h6, h8, not_lt.mp h6]
      · simp [h6, h8]
  · by_cases h6 : Int.fract (s.stream s.idx) < 6 / 10
    · have h85 : ¬ 85 / 100 ≤ Int.fract (s.stream s.idx) := by
        intro h; linarith
      simp [h6, h85]
    · by_cases h8 : Int.fract (s.stream s.idx) < 85 / 100
      · simp [h6, h8, not_le.mpr h8]
      · simp [h6, h8, not_lt.mp h8]

/-- The `result` attribute written by `generate_test_step`, in closed form:
`pass` verdicts and non-`fail` verdicts always yield `pass`; a `fail`
verdict yields `fail` exactly when the fresh draw is below 0.7. -/
theorem stepResult_eq (ts : ℚ) (n : ℕ) (v : String) (s : RState) :
    stepResult (generate_test_step ts n v s).1 =
      some (if v = "pass" then "pass"
        else if v = "fail" then
          (if (pyRandom (afterStepHeader s)).1 < 7 / 10 then "fail" else "pass")
        else "pass") := by
  simp only [generate_test_step, stepResult, afterStepHeader, pyRandint,
    pyChoice, pyRandom, rawNat, pyUniform, RState.succ]
  split_ifs <;> simp_all [XElem.getAttr, XElem.attrs, List.find?]

/-- **C4.** The step result written by `generate_test_step` is conditioned
on the case verdict: a `'pass'` verdict forces a `'pass'` step; a `'fail'`
verdict gives `'fail'` exactly when the fresh draw is below 0.7 and
`'pass'` otherwise; an `'inconclusive'` verdict forces `'pass'`; hence a
failing step occurs only inside a case whose verdict is `'fail'`. -/
theorem claim_C4 (ts : ℚ) (n : ℕ) (v : String) (s : RState) :
    (v = "pass" → stepResult (generate_test_step ts n v s).1 = some "pass") ∧
    (v = "fail" → stepResult (generate_test_step ts n v s).1 =
      some (if (pyRandom (afterStepHeader s)).1 < 7 / 10 then "fail" else "pass")) ∧
    (v = "inconclusive" → stepResult (generate_test_step ts n v s).1 = some "pass") ∧
    (stepResult (generate_test_step ts n v s).1 = some "fail" → v = "fail") := by
  have h := stepResult_eq ts n v s
  refine ⟨?_, ?_, ?_, ?_⟩
  · intro hv; subst hv; simpa using h
  · intro hv; subst hv; simpa using h
  · intro hv; subst hv; simpa using h
  · intro hres
    by_cases h1 : v = "pass"
    · rw [h, if_pos h1] at hres; simp at hres
    · by_cases h2 : v = "fail"
      · exact h2
      · rw [h, if_neg h1, if_neg h2] at hres; simp at hres

/-- Witness for C4: with the all-zero stream and a `'fail'` case verdict,
the fresh draw is 0 < 0.7, so the step result is `'fail'`. -/
theorem claim_C4_witness :
    stepResult (generate_test_step 0 1 "fail" (RState.mk (fun _ => 0) 0)).1 =
      some "fail" :=
  ((claim_C4 0 1 "fail" (RState.mk (fun _ => 0) 0)).2.1 rfl).trans (by
    norm_num [pyRandom, afterStepHeader, pyChoice, pyRandint, rawNat, RState.succ])

/-- An in-range `getD` is a member of the list. -/
theorem getD_mem_of_lt {α : Type} :
    ∀ (l : List α) (i : ℕ) (d : α), i < l.length → l.getD i d ∈ l
  | a :: l, 0, _, _ => List.mem_cons_self a l
  | a :: l, i + 1, d, h =>
      List.mem_cons_of_mem a (getD_mem_of_lt l i d (by simpa using h))


/-- **C5.** A `tabularinfo` child is attached by `generate_test_step`
exactly when the step result is `'fail'` and the fresh draw is below 0.5;
every attached table has exactly 5 rows, each of exactly 3 cells, and the
last cell of the `Error` row is `'NRC '` followed by exactly the last two
characters of the response-bytes field chosen for that table — the same
`actual_resp` that populates the `Actual` row of the table. -/
theorem claim_C5 (ts : ℚ) (n : ℕ) (v : String) (s : RState) :
    ((∃ i, i < (generate_test_step ts n v s).1.children.length ∧
        ((generate_test_step ts n v s).1.children.getD i emptyElem).tag =
          "tabularinfo") ↔
      (stepResult (generate_test_step ts n v s).1 = some "fail" ∧
        tabularDraw v s < 1 / 2)) ∧
    (∀ i, i < (generate_test_step ts n v s).1.children.length →
      ((generate_test_step ts n v s).1.children.getD i emptyElem).tag =
        "tabularinfo" →
      ((generate_test_step ts n v s).1.children.getD i emptyElem).children.length
          = 5 ∧
      (∀ j, j < 5 →
        (((generate_test_step ts n v s).1.children.getD i
            emptyElem).children.getD j emptyElem).children.length = 3) ∧
      (∃ ar hex dsc, (ar, hex, dsc) ∈ errorCodes ∧
        actualRespCell ((generate_test_step ts n v s).1.children.getD i
            emptyElem) = some ar ∧
        errRowLastCell ((generate_test_step ts n v s).1.children.getD i
            emptyElem) = some ("NRC " ++ strTakeRight 2 ar))) := by
  rw [stepResult_eq]
  by_cases h1 : v = "pass"
  · subst h1
    simp [generate_test_step, pyRandint, pyChoice, pyRandom, rawNat, pyUniform,
      RState.succ, tabularDraw, afterStepResult, afterStepHeader,
      XElem.children, XElem.tag]
  · by_cases h2 : v = "fail"
    · subst h2
      simp [generate_test_step, pyRandint, pyChoice, pyRandom, rawNat,
        pyUniform, RState.succ, tabularDraw, afterStepResult, afterStepHeader,
        XElem.children, XElem.tag]
      by_cases h3 : Int.fract (s.stream (s.idx + 1 + 1)) < 7 / 10
      · by_cases h4 : Int.fract (s.stream (s.idx + 1 + 1 + 1 + 1)) < (2 : ℚ)⁻¹
        · simp [h3, h4, mkTabular, XElem.tag, XElem.children]
          refine ⟨?_, ?_⟩
          · intro j hj
            interval_cases j <;> rfl
          · refine ⟨(errorCodes[⌊s.stream (s.idx + 1 + 1 + 1 + 1 + 1 + 1)⌋.toNat %
                errorCodes.length]?.getD ("", "", "")).1,
              ⟨(errorCodes[⌊s.stream (s.idx + 1 + 1 + 1 + 1 + 1 + 1)⌋.toNat %
                  errorCodes.length]?.getD ("", "", "")).2.1,
               (errorCodes[⌊s.stream (s.idx + 1 + 1 + 1 + 1 + 1 + 1)⌋.toNat %
                  errorCodes.length]?.getD ("", "", "")).2.2, ?_⟩, ?_, ?_⟩
            · have hm := getD_mem_of_lt errorCodes
                (⌊s.stream (s.idx + 1 + 1 + 1 + 1 + 1 + 1)⌋.toNat % errorCodes.length)
                ("", "", "") (Nat.mod_lt _ (by norm_num [errorCodes]))
              simpa [List.getD] using hm
            · simp [actualRespCell, XElem.children, XElem.text, List.getD]
            · simp [errRowLastCell, XElem.children, XElem.text, List.getLastD]
        · simp [h3, h4]
      · simp [h3]
    · simp [generate_test_step, pyRandint, pyChoice, pyRandom, rawNat,
        pyUniform, RState.succ, tabularDraw, afterStepResult, afterStepHeader,
        XElem.children, XElem.tag, h1, h2]

/-- Witness for C5: with the all-zero stream and a `'fail'` case verdict
the step fails and the 0.5-draw is 0, so a table is attached. -/
theorem claim_C5_witness :
    ∃ i, i < (generate_test_step 0 1 "fail"
        (RState.mk (fun _ => 0) 0)).1.children.length ∧
      ((generate_test_step 0 1 "fail"
          (RState.mk (fun _ => 0) 0)).1.children.getD i emptyElem).tag =
        "tabularinfo" := by
  have h := claim_C5 0 1 "fail" (RState.mk (fun _ => 0) 0)
  refine h.1.mpr ⟨?_, ?_⟩
  · rw [stepResult_eq]
    norm_num [pyRandom, afterStepHeader, pyChoice, pyRandint, rawNat,
      RState.succ]
    decide
  · norm_num [tabularDraw, afterStepResult, afterStepHeader, pyRandom,
      pyChoice, pyRandint, rawNat, RState.succ]

/-- The `title` child written by `genGroupF`: depth-indented, then
`Level{level}`, the two vocabulary choices, and the group identifier
(`f'{indent}Level{level}_{type}_{area}_{group_num_str}'`, line 153). -/
theorem genGroupF_titleText (fuel : ℕ) (ts : ℚ) (gid : GroupId)
    (level max_level : ℕ) (nested : Bool) (s : RState) :
    groupTitleText (genGroupF fuel ts gid level max_level nested s).1 =
      some (indentOf level ++ "Level" ++ Nat.repr level ++ "_" ++
        (pyChoice groupTypes "" s).1 ++ "_" ++
        (pyChoice groupAreas "" (pyChoice groupTypes "" s).2).1 ++ "_" ++
        groupNumStr gid) := by
  cases fuel with
  | zero =>
    simp [genGroupF, genGroupFlatTail, pyChoice, rawNat, RState.succ,
      pyRandom, pyRandint, groupTitleText, XElem.children, XElem.text]
  | succ f =>
    simp only [genGroupF, pyChoice, rawNat, RState.succ, pyRandom, pyRandint]
    by_cases hn : nested = true ∧ level < max_level
    · simp only [if_pos hn]
      cases hd : decide (Int.fract (s.stream (s.idx + 1 + 1)) < 3 / 10) <;>
        simp [hd, genGroupFlatTail, pyChoice, rawNat, RState.succ, pyRandint,
          groupTitleText, XElem.children, XElem.text]
    · simp only [if_neg hn]
      simp [genGroupFlatTail, pyChoice, rawNat, RState.succ, pyRandint,
        groupTitleText, XElem.children, XElem.text]

/-- `String.append` concatenates the underlying character lists. -/
theorem strData_append (a b : String) : (a ++ b).data = a.data ++ b.data := rfl

/-- Every child built by the nested-children loop carries, at 1-based
position `idx + i`, a title ending in the underscore-joined identifier
`{parent}_{idx + i}`, provided the child generator stamps titles ending in
the identifier it is given — which `genGroupF` does. -/
theorem genChildrenAux_titleText
    (gen : ℚ → GroupId → RState → XElem × ℚ × RState)
    (hgen : ∀ t g s', ∃ p, groupTitleText (gen t g s').1 = some (p ++ groupNumStr g)) :
    ∀ (count idx : ℕ) (gid : GroupId) (t : ℚ) (s : RState) (i : ℕ), i < count →
    ∃ pre, groupTitleText ((genChildrenAux gen count idx gid t s).1.getD i emptyElem) =
      some (pre ++ (groupPlainStr gid ++ "_" ++ Nat.repr (idx + i))) := by
  intro count
  induction count with
  | zero => intro idx gid t s i hi; exact absurd hi (Nat.not_lt_zero i)
  | succ k ih =>
    intro idx gid t s i hi
    simp only [genChildrenAux]
    cases i with
    | zero =>
      obtain ⟨p, hp⟩ := hgen t (Sum.inr (childGroupId gid idx)) s
      refine ⟨p, ?_⟩
      simpa [groupNumStr, childGroupId, List.getD] using hp
    | succ i =>
      have harith : idx + (i + 1) = (idx + 1) + i := by omega
      rw [harith]
      simpa [List.getD] using
        ih (idx + 1) gid
          ((gen t (Sum.inr (childGroupId gid idx)) s).2.1 +
            (pyUniform 2 5 (gen t (Sum.inr (childGroupId gid idx)) s).2.2).1)
          (pyUniform 2 5 (gen t (Sum.inr (childGroupId gid idx)) s).2.2).2 i
          (by omega)

/-- **C6 (amended).** For every nested child group built by
`generate_test_group` when it recurses, the child group identifier is
formed by joining the parent identifier and the child's 1-based index with
an **underscore** (`f'{group_num}_{nested_num}'`, line 161), and that
identifier terminates the child's title text; so an id at nesting depth
`k` is an underscore-separated path string with `k` components. -/
theorem claim_C6_amended (fuel count idx : ℕ) (t : ℚ) (gid : GroupId)
    (level max_level : ℕ) (nested : Bool) (s : RState) (i : ℕ) (hi : i < count) :
    ∃ pre, groupTitleText ((genChildrenAux
        (fun t' g s' => genGroupF fuel t' g (level + 1) max_level nested s')
        count idx gid t s).1.getD i emptyElem) =
      some (pre ++ (groupPlainStr gid ++ "_" ++ Nat.repr (idx + i))) :=
  genChildrenAux_titleText _
    (fun t' g s' => ⟨_, genGroupF_titleText fuel t' g (level + 1) max_level nested s'⟩)
    count idx gid t s i hi

/-- Witness for C6 (amended): parent id 7, first child — the child's title
ends in `7_1`. -/
theorem claim_C6_witness :
    ∃ pre, groupTitleText ((genChildrenAux
        (fun t' g s' => genGroupF 2 t' g 2 3 true s')
        1 1 (Sum.inl 7) 0 (RState.mk (fun _ => 0) 0)).1.getD 0 emptyElem) =
      some (pre ++ (groupPlainStr (Sum.inl 7) ++ "_" ++ Nat.repr 1)) :=
  claim_C6_amended 2 1 1 0 (Sum.inl 7) 1 3 true (RState.mk (fun _ => 0) 0) 0
    (by norm_num)

/-- Counterexample for C6 as stated: the identifier the program forms at
line 161 for parent id 1 and child index 1 is the underscore-join `1_1`,
not the dot-join `1.1`; the generated child's title ends in `1_1` and does
not end in `1.1`. -/
theorem claim_C6_counterexample :
    childGroupId (Sum.inl 1) 1 = groupPlainStr (Sum.inl 1) ++ "_" ++ Nat.repr 1 ∧
    childGroupId (Sum.inl 1) 1 ≠ groupPlainStr (Sum.inl 1) ++ "." ++ Nat.repr 1 ∧
    ¬ ∃ pre : String, groupTitleText ((genChildrenAux
        (fun t' g s' => genGroupF 2 t' g 2 3 true s')
        1 1 (Sum.inl 1) 0 (RState.mk (fun _ => 0) 0)).1.getD 0 emptyElem) =
      some (pre ++ (groupPlainStr (Sum.inl 1) ++ "." ++ Nat.repr 1)) := by
  refine ⟨rfl, by decide, ?_⟩
  have hstep : (genChildrenAux (fun t' g s' => genGroupF 2 t' g 2 3 true s')
      1 1 (Sum.inl 1) 0 (RState.mk (fun _ => 0) 0)).1.getD 0 emptyElem =
      (genGroupF 2 0 (Sum.inr (childGroupId (Sum.inl 1) 1)) 2 3 true
        (RState.mk (fun _ => 0) 0)).1 := by
    simp [genChildrenAux, List.getD]
  have hval : groupTitleText ((genChildrenAux
      (fun t' g s' => genGroupF 2 t' g 2 3 true s')
      1 1 (Sum.inl 1) 0 (RState.mk (fun _ => 0) 0)).1.getD 0 emptyElem) =
      some "  Level2_Communication_Tests_1_1" := by
    rw [hstep, genGroupF_titleText]
    norm_num [pyChoice, rawNat, RState.succ, indentOf, groupTypes, groupAreas,
      groupNumStr, childGroupId, groupPlainStr]
    decide
  rintro ⟨pre, hpre⟩
  rw [hval] at hpre
  have h2 : ("  Level2_Communication_Tests_1_1" : String) =
      pre ++ (groupPlainStr (Sum.inl 1) ++ "." ++ Nat.repr 1) := by
    simpa using hpre
  have h3 : (['1', '.', '1'] : List Char) <:+
      ("  Level2_Communication_Tests_1_1" : String).data :=
    ⟨pre.data, (congrArg String.data h2).symm⟩
  exact absurd h3 (by decide)

mutual

/-- Nesting depth of `testgroup` elements in a tree: 1 for a group plus
the deepest group nesting among the children. -/
def groupDepth : XElem → ℕ
  | .mk t _ _ cs => (if t = "testgroup" then 1 else 0) + groupDepthL cs

/-- Maximum `groupDepth` over a list of elements. -/
def groupDepthL : List XElem → ℕ
  | [] => 0
  | c :: cs => max (groupDepth c) (groupDepthL cs)

end

/-- `groupDepthL` distributes over append as a maximum. -/
theorem groupDepthL_append (l1 l2 : List XElem) :
    groupDepthL (l1 ++ l2) = max (groupDepthL l1) (groupDepthL l2) := by
  induction l1 with
  | nil => simp [groupDepthL]
  | cons c cs ih => simp [groupDepthL, ih, Nat.max_assoc]

/-- A test step contains no `testgroup`. -/
theorem groupDepth_step (ts : ℚ) (n : ℕ) (v : String) (s : RState) :
    groupDepth (generate_test_step ts n v s).1 = 0 := by
  simp only [generate_test_step, pyRandint, pyChoice, pyRandom, rawNat,
    pyUniform, RState.succ]
  split_ifs <;> simp [groupDepth, groupDepthL, mkTabular]

/-- A run of test steps contains no `testgroup`. -/
theorem groupDepthL_genSteps (k num : ℕ) (t : ℚ) (v : String) (s : RState) :
    groupDepthL (genSteps k num t v s).1 = 0 := by
  induction k generalizing num t s with
  | zero => simp [genSteps, groupDepthL]
  | succ k ih => simp [genSteps, groupDepthL, groupDepth_step, ih]

/-- A test case contains no `testgroup`. -/
theorem groupDepth_case (ts : ℚ) (n : ℕ) (g : String) (s : RState) :
    groupDepth (generate_test_case ts n g s).1 = 0 := by
  simp [generate_test_case, generate_random_verdict, pyRandint, pyChoice,
    pyRandom, rawNat, pyUniform, RState.succ, groupDepth, groupDepthL,
    groupDepthL_append, groupDepthL_genSteps]

/-- A skipped test contains no `testgroup`. -/
theorem groupDepth_skipped (t : ℚ) (n : ℕ) (s : RState) :
    groupDepth (generate_skipped_test t n s).1 = 0 := by
  simp [generate_skipped_test, pyChoice, rawNat, RState.succ, groupDepth,
    groupDepthL]

/-- A flat population contains no `testgroup`. -/
theorem groupDepthL_genFlat (k num : ℕ) (t : ℚ) (g : String) (s : RState) :
    groupDepthL (genFlat k num t g s).1 = 0 := by
  induction k generalizing num t s with
  | zero => simp [genFlat, groupDepthL]
  | succ k ih =>
    simp only [genFlat]
    split_ifs <;>
      simp [groupDepthL, groupDepth_skipped, groupDepth_case, ih]

/-- The children loop preserves a uniform depth bound on the child
generator. -/
theorem groupDepthL_genChildrenAux
    (gen : ℚ → GroupId → RState → XElem × ℚ × RState) (d : ℕ)
    (hg : ∀ t g s', groupDepth (gen t g s').1 ≤ d) :
    ∀ (count idx : ℕ) (gid : GroupId) (t : ℚ) (s : RState),
      groupDepthL (genChildrenAux gen count idx gid t s).1 ≤ d := by
  intro count
  induction count with
  | zero => intro idx gid t s; simp [genChildrenAux, groupDepthL]
  | succ k ih =>
    intro idx gid t s
    simp only [genChildrenAux, groupDepthL]
    exact max_le_iff.mpr ⟨hg _ _ _, ih _ _ _ _⟩

/-- Depth bound for `genGroupF`: whenever the budget covers the remaining
levels (`max_level ≤ level + fuel`), the generated group nests at most
`max_level - level + 1` group levels (itself included). -/
theorem genGroupF_depth :
    ∀ (fuel : ℕ) (ts : ℚ) (gid : GroupId) (level max_level : ℕ)
      (nested : Bool) (s : RState), max_level ≤ level + fuel →
    groupDepth (genGroupF fuel ts gid level max_level nested s).1 ≤
      max_level - level + 1 := by
  intro fuel
  induction fuel with
  | zero =>
    intro ts gid level max_level nested s _
    simp [genGroupF, genGroupFlatTail, pyChoice, rawNat, RState.succ,
      pyRandom, pyRandint, groupDepth, groupDepthL, groupDepthL_genFlat]
  | succ f ih =>
    intro ts gid level max_level nested s hle
    simp only [genGroupF, pyChoice, rawNat, RState.succ, pyRandom, pyRandint]
    by_cases hn : nested = true ∧ level < max_level
    · simp only [if_pos hn]
      cases hd : decide (Int.fract (s.stream (s.idx + 1 + 1)) < 3 / 10) with
      | false =>
        simp [hd, genGroupFlatTail, pyChoice, rawNat, RState.succ, pyRandint,
          groupDepth, groupDepthL, groupDepthL_genFlat]
      | true =>
        have hch := groupDepthL_genChildrenAux
          (fun t' g s' => genGroupF f t' g (level + 1) max_level nested s')
          (max_level - (level + 1) + 1)
          (fun t' g s' => ih t' g (level + 1) max_level nested s' (by omega))
        simp [hd, groupDepth, groupDepthL]
        have hx : groupDepthL
            (genChildrenAux (fun t g s' => genGroupF f t g (level + 1) max_level nested s')
              (1 + ⌊s.stream (s.idx + 1 + 1 + 1)⌋.toNat % 3) 1 gid (ts + 1)
              (RState.mk s.stream (s.idx + 1 + 1 + 1 + 1))).1 ≤
            max_level - (level + 1) + 1 := hch _ _ _ _ _
        omega
    · simp only [if_neg hn]
      simp [genGroupFlatTail, pyChoice, rawNat, RState.succ, pyRandint,
        groupDepth, groupDepthL, groupDepthL_genFlat]

/-- **C7.** For every invocation of `generate_test_group` at depth 1 with
maximum depth `D ≥ 1` and nesting enabled, no generated group lies more
than `D` levels below the module root: the nesting guard requires
`level < max_level`, so a group at depth `D` never recurses. -/
theorem claim_C7 (D : ℕ) (hD : 1 ≤ D) (ts : ℚ) (gid : GroupId) (s : RState) :
    groupDepth (generate_test_group ts gid 1 D true s).1 ≤ D := by
  have h := genGroupF_depth (D + 1 - 1) ts gid 1 D true s (by omega)
  have h2 : groupDepth (generate_test_group ts gid 1 D true s).1 ≤ D - 1 + 1 := by
    simpa [generate_test_group] using h
  omega

/-- Witness for C7 at `D = 3` with the all-zero stream. -/
theorem claim_C7_witness :
    groupDepth (generate_test_group 0 (Sum.inl 1) 1 3 true
      (RState.mk (fun _ => 0) 0)).1 ≤ 3 :=
  claim_C7 3 (by norm_num) 0 (Sum.inl 1) (RState.mk (fun _ => 0) 0)

/-- A skipped test is tagged `skipped`. -/
theorem generate_skipped_tag (t : ℚ) (n : ℕ) (s : RState) :
    (generate_skipped_test t n s).1.tag = "skipped" := by
  simp [generate_skipped_test, pyChoice, rawNat, RState.succ, XElem.tag]

/-- A test case is tagged `testcase`. -/
theorem generate_case_tag (ts : ℚ) (n : ℕ) (g : String) (s : RState) :
    (generate_test_case ts n g s).1.tag = "testcase" := by
  simp [generate_test_case, generate_random_verdict, pyRandint, pyChoice,
    pyRandom, rawNat, pyUniform, RState.succ, XElem.tag]

/-- Every element of a flat population is a `testcase` or a `skipped`. -/
theorem genFlat_tags (k : ℕ) : ∀ (num : ℕ) (t : ℚ) (g : String) (s : RState),
    ∀ c ∈ (genFlat k num t g s).1, c.tag = "testcase" ∨ c.tag = "skipped" := by
  induction k with
  | zero => intro num t g s; simp [genFlat]
  | succ k ih =>
    intro num t g s
    simp only [genFlat]
    split_ifs with h
    · intro c hc
      rcases List.mem_cons.mp hc with hceq | hmem
      · rw [hceq]; exact Or.inr (generate_skipped_tag _ _ _)
      · exact ih _ _ _ _ c hmem
    · intro c hc
      rcases List.mem_cons.mp hc with hceq | hmem
      · rw [hceq]; exact Or.inl (generate_case_tag _ _ _ _)
      · exact ih _ _ _ _ c hmem

/-- Every generated group is tagged `testgroup`. -/
theorem genGroupF_tag : ∀ (fuel : ℕ) (ts : ℚ) (gid : GroupId)
    (level max_level : ℕ) (nested : Bool) (s : RState),
    (genGroupF fuel ts gid level max_level nested s).1.tag = "testgroup" := by
  intro fuel ts gid level max_level nested s
  cases fuel <;>
    · simp only [genGroupF, pyChoice, rawNat, RState.succ, pyRandom, pyRandint]
      split_ifs <;>
        simp [genGroupFlatTail, pyRandint, rawNat, RState.succ, XElem.tag]

/-- Every element built by the children loop is a `testgroup`, provided
the child generator only builds `testgroup`s. -/
theorem genChildrenAux_tags
    (gen : ℚ → GroupId → RState → XElem × ℚ × RState)
    (hg : ∀ t g s', (gen t g s').1.tag = "testgroup") :
    ∀ (count idx : ℕ) (gid : GroupId) (t : ℚ) (s : RState),
    ∀ c ∈ (genChildrenAux gen count idx gid t s).1, c.tag = "testgroup" := by
  intro count
  induction count with
  | zero => intro idx gid t s; simp [genChildrenAux]
  | succ k ih =>
    intro idx gid t s
    simp only [genChildrenAux]
    intro c hc
    rcases List.mem_cons.mp hc with hceq | hmem
    · rw [hceq]; exact hg _ _ _
    · exact ih _ _ _ _ c hmem

/-- **C8.** Every group produced by `generate_test_group` is purely nested
or purely flat: apart from the leading `title` child, either all children
are `testgroup` elements, or all children are `testcase`/`skipped`
elements — never a mixture. -/
theorem claim_C8 (ts : ℚ) (gid : GroupId) (level max_level : ℕ)
    (nested : Bool) (s : RState) :
    (∀ c ∈ (generate_test_group ts gid level max_level nested s).1.children.drop 1,
        c.tag = "testgroup") ∨
    (∀ c ∈ (generate_test_group ts gid level max_level nested s).1.children.drop 1,
        c.tag = "testcase" ∨ c.tag = "skipped") := by
  have H : ∀ (fuel : ℕ) (ts : ℚ) (s : RState),
      (∀ c ∈ (genGroupF fuel ts gid level max_level nested s).1.children.drop 1,
          c.tag = "testgroup") ∨
      (∀ c ∈ (genGroupF fuel ts gid level max_level nested s).1.children.drop 1,
          c.tag = "testcase" ∨ c.tag = "skipped") := by
    intro fuel ts s
    cases fuel with
    | zero =>
      right
      simp only [genGroupF, pyChoice, rawNat, RState.succ, pyRandom]
      split_ifs <;>
        · simp only [genGroupFlatTail, pyRandint, rawNat, RState.succ,
            XElem.children, List.drop_succ_cons, List.drop_zero]
          exact fun c hc => genFlat_tags _ _ _ _ _ c hc
    | succ f =>
      simp only [genGroupF, pyChoice, rawNat, RState.succ, pyRandom, pyRandint]
      by_cases hn : nested = true ∧ level < max_level
      · simp only [if_pos hn]
        cases hd : decide (Int.fract (s.stream (s.idx + 1 + 1)) < 3 / 10) with
        | true =>
          left
          simp [hd, XElem.children]
          exact fun c hc => genChildrenAux_tags _
            (fun t' g s' => genGroupF_tag f t' g (level + 1) max_level nested s')
            _ _ _ _ _ c hc
        | false =>
          right
          simp [hd, genGroupFlatTail, pyRandint, rawNat, RState.succ,
            XElem.children]
          exact fun c hc => genFlat_tags _ _ _ _ _ c hc
      · simp only [if_neg hn]
        right
        simp [genGroupFlatTail, pyRandint, rawNat, RState.succ, XElem.children]
        exact fun c hc => genFlat_tags _ _ _ _ _ c hc
  simpa [generate_test_group] using H (max_level + 1 - level) ts s

/-- Witness for C8 at a concrete input. -/
theorem claim_C8_witness :
    (∀ c ∈ (generate_test_group 0 (Sum.inl 1) 1 3 true
        (RState.mk (fun _ => 0) 0)).1.children.drop 1, c.tag = "testgroup") ∨
    (∀ c ∈ (generate_test_group 0 (Sum.inl 1) 1 3 true
        (RState.mk (fun _ => 0) 0)).1.children.drop 1,
      c.tag = "testcase" ∨ c.tag = "skipped") :=
  claim_C8 0 (Sum.inl 1) 1 3 true (RState.mk (fun _ => 0) 0)

/-- Witness for C3: the all-zero stream draws 0 < 0.6, so the verdict is
`'pass'`. -/
theorem claim_C3_witness :
    (generate_random_verdict (RState.mk (fun _ => 0) 0)).1 = "pass" :=
  (claim_C3 (RState.mk (fun _ => 0) 0)).2.2.1.mpr
    (by norm_num [pyRandom, RState.succ])

/-- An `:08d`-formatted number below `10^8` has exactly 8 characters. -/
theorem padNum_length_eight (n : ℕ) (h : n < 10 ^ 8) :
    (padNum 8 n).length = 8 := by
  unfold padNum
  rw [if_pos h]
  simp [String.length]

/-- Every character of a zero-padded in-range number is a decimal digit. -/
theorem padNum_digits (w n : ℕ) (h : n < 10 ^ w) :
    isDigitStr (padNum w n) = true := by
  unfold padNum
  rw [if_pos h]
  simp only [isDigitStr, List.all_eq_true]
  intro c hc
  obtain ⟨i, -, hci⟩ := List.mem_map.mp hc
  have hd : n / 10 ^ i % 10 < 10 := Nat.mod_lt _ (by norm_num)
  rw [← hci]
  interval_cases hn : (n / 10 ^ i % 10) <;> decide

/-- **C9.** The root attributes written by `generate_test_module`:
`timestamp` is the literal `0.0` (the one-decimal rendering of 0),
`verdicts` is the literal `2_basic`, `starttime` is the fixed base date
`2026-02-10 10:00:00` plus file-index minutes formatted
`YYYY-MM-DD HH:MM:SS`, and `measurementid` is an 8-digit numeric prefix
followed by the fixed literal suffix `-ffff-4444-82aa-af7cs55583`. -/
theorem claim_C9 (num_groups : ℤ) (nested : Bool) (seed : Option ℕ)
    (fi : ℕ) (s : RState) :
    (generate_test_module num_groups nested seed fi s).getAttr "timestamp" =
      some (.num 0) ∧
    (generate_test_module num_groups nested seed fi s).getAttr "verdicts" =
      some (.str "2_basic") ∧
    (generate_test_module num_groups nested seed fi s).getAttr "starttime" =
      some (.str (fmtDateTime (addMinutes ⟨⟨2026, 2, 10⟩, 10 * 3600⟩ fi))) ∧
    ∃ ds : String,
      (generate_test_module num_groups nested seed fi s).getAttr
          "measurementid" = some (.str (ds ++ "-ffff-4444-82aa-af7cs55583")) ∧
      ds.length = 8 ∧ isDigitStr ds = true := by
  have h90 : ∀ m : ℕ, 10000000 + m % 90000000 < 10 ^ 8 := by
    intro m
    have := Nat.mod_lt m (show 0 < 90000000 by norm_num)
    omega
  cases seed <;>
    · refine ⟨?_, ?_, ?_, ?_⟩ <;>
        simp [generate_test_module, XElem.getAttr, XElem.attrs, List.find?,
          pyRandint, rawNat, RState.succ]
      refine ⟨_, rfl, padNum_length_eight _ (h90 _), padNum_digits _ _ (h90 _)⟩

/-- **C10.** For every group count ≤ 0, `generate_test_module` still
produces a complete document (the function is total): the root is a
`testmodule` with its metadata attributes, exactly one child — the
`testsetup` block whose description names the requested group count — and
zero `testgroup` children. -/
theorem claim_C10 (num_groups : ℤ) (h : num_groups ≤ 0) (nested : Bool)
    (seed : Option ℕ) (fi : ℕ) (s : RState) :
    (generate_test_module num_groups nested seed fi s).tag = "testmodule" ∧
    (generate_test_module num_groups nested seed fi s).children.length = 1 ∧
    ((generate_test_module num_groups nested seed fi s).children.getD 0
        emptyElem).tag = "testsetup" ∧
    descriptionText (generate_test_module num_groups nested seed fi s) =
      some ("Stress Test Module with " ++ toString num_groups ++ " Groups") ∧
    (∀ c ∈ (generate_test_module num_groups nested seed fi s).children,
      c.tag ≠ "testgroup") ∧
    (generate_test_module num_groups nested seed fi s).getAttr "verdicts" =
      some (.str "2_basic") := by
  have hz : num_groups.toNat = 0 := Int.toNat_of_nonpos h
  cases seed <;>
    · refine ⟨?_, ?_, ?_, ?_, ?_, ?_⟩ <;>
        simp [generate_test_module, hz, genGroups, descriptionText,
          XElem.tag, XElem.children, XElem.text, XElem.getAttr, XElem.attrs,
          List.find?, List.getD]

/-- Witness for C10 at group count −3. -/
theorem claim_C10_witness :
    (generate_test_module (-3) true none 1
      (RState.mk (fun _ => 0) 0)).children.length = 1 :=
  (claim_C10 (-3) (by norm_num) true none 1 (RState.mk (fun _ => 0) 0)).2.1

/-- The numeric value of a `timestamp` attribute, if this pair is one. -/
def attrTs (p : String × AVal) : Option ℚ :=
  if p.1 = "timestamp" then
    match p.2 with
    | .num q => some q
    | .str _ => none
  else none

mutual

/-- All timestamp attribute values of a tree in document order: the
element's own `timestamp` attribute first, then its children's, left to
right. -/
def tsList : XElem → List ℚ
  | .mk _ attrs _ cs => attrs.filterMap attrTs ++ tsListL cs

/-- Concatenated `tsList`s of a list of elements. -/
def tsListL : List XElem → List ℚ
  | [] => []
  | c :: cs => tsList c ++ tsListL cs

end

/-- `tsListL` distributes over append. -/
theorem tsListL_append (l1 l2 : List XElem) :
    tsListL (l1 ++ l2) = tsListL l1 ++ tsListL l2 := by
  induction l1 with
  | nil => simp [tsListL]
  | cons c cs ih => simp [tsListL, ih]

/-- One-decimal rounding is monotone. -/
theorem fmt1_mono {a b : ℚ} (h : a ≤ b) : fmt1 a ≤ fmt1 b := by
  unfold fmt1
  have := Int.floor_mono (show 10 * a + 1 / 2 ≤ 10 * b + 1 / 2 by linarith)
  have hc : ((⌊10 * a + 1 / 2⌋ : ℚ)) ≤ ((⌊10 * b + 1 / 2⌋ : ℚ)) :=
    Int.cast_le.mpr this
  linarith

/-- The span predicate for C2: `l` is a sorted run of one-decimal
timestamps lying between the cursor values `a` and `b`. -/
def TSOk (a b : ℚ) (l : List ℚ) : Prop :=
  a ≤ b ∧ l.Pairwise (· ≤ ·) ∧ ∀ x ∈ l, fmt1 a ≤ x ∧ x ≤ fmt1 b

/-- The empty run spans any advance. -/
theorem TSOk_nil {a b : ℚ} (h : a ≤ b) : TSOk a b [] :=
  ⟨h, List.Pairwise.nil, by simp⟩

/-- A single stamp taken at `c ∈ [a, b]` spans `[a, b]`. -/
theorem TSOk_single {a b c : ℚ} (h1 : a ≤ c) (h2 : c ≤ b) :
    TSOk a b [fmt1 c] :=
  ⟨h1.trans h2, List.pairwise_singleton _ _,
   fun x hx => by
    rcases List.mem_singleton.mp hx with rfl
    exact ⟨fmt1_mono h1, fmt1_mono h2⟩⟩

/-- Consecutive spans concatenate. -/
theorem TSOk_append {a b c : ℚ} {l1 l2 : List ℚ}
    (h1 : TSOk a b l1) (h2 : TSOk b c l2) : TSOk a c (l1 ++ l2) := by
  refine ⟨h1.1.trans h2.1, ?_, ?_⟩
  · refine List.pairwise_append.mpr ⟨h1.2.1, h2.2.1, ?_⟩
    intro x hx y hy
    exact le_trans (h1.2.2 x hx).2 (h2.2.2 y hy).1
  · intro x hx
    rcases List.mem_append.mp hx with hx | hx
    · exact ⟨(h1.2.2 x hx).1, (h1.2.2 x hx).2.trans (fmt1_mono h2.1)⟩
    · exact ⟨(fmt1_mono h1.1).trans (h2.2.2 x hx).1, (h2.2.2 x hx).2⟩

/-- Spans widen. -/
theorem TSOk_mono {a a' b b' : ℚ} {l : List ℚ} (ha : a' ≤ a) (hb : b ≤ b')
    (h : TSOk a b l) : TSOk a' b' l :=
  ⟨ha.trans (h.1.trans hb), h.2.1,
   fun x hx => ⟨(fmt1_mono ha).trans (h.2.2 x hx).1,
     (h.2.2 x hx).2.trans (fmt1_mono hb)⟩⟩

/-- Failure tables carry no timestamps. -/
theorem tsList_mkTabular (svc : String × String)
    (ec : String × String × String) : tsList (mkTabular svc ec) = [] := by
  simp [mkTabular, tsList, tsListL, attrTs]

/-- A step stamps exactly one timestamp, at the entry cursor, and advances
the cursor by `uniform(0.5, 2.0)`. -/
theorem genStep_TSOk (ts : ℚ) (n : ℕ) (v : String) (s : RState) :
    TSOk ts (generate_test_step ts n v s).2.1
      (tsList (generate_test_step ts n v s).1) := by
  simp only [generate_test_step, pyRandint, pyChoice, pyRandom, rawNat,
    pyUniform, RState.succ]
  split_ifs <;>
    · simp only [tsList, tsListL, tsList_mkTabular, attrTs,
        List.filterMap, List.append_nil]
      refine TSOk_single (le_refl ts) ?_
      first
      | nlinarith [Int.fract_nonneg (s.stream (s.idx + 1 + 1 + 1))]
      | nlinarith [Int.fract_nonneg (s.stream (s.idx + 1 + 1 + 1 + 1))]
      | nlinarith [Int.fract_nonneg (s.stream (s.idx + 1 + 1 + 1 + 1 + 1))]
      | nlinarith [Int.fract_nonneg (s.stream (s.idx + 1 + 1 + 1 + 1 + 1 + 1))]
      | nlinarith [Int.fract_nonneg (s.stream (s.idx + 1 + 1 + 1 + 1 + 1 + 1 + 1))]

/-- A run of steps is a sorted timestamp span. -/
theorem genSteps_TSOk (k : ℕ) : ∀ (num : ℕ) (t : ℚ) (v : String) (s : RState),
    TSOk t (genSteps k num t v s).2.1 (tsListL (genSteps k num t v s).1) := by
  induction k with
  | zero => intro num t v s; exact TSOk_nil (le_refl t)
  | succ k ih =>
    intro num t v s
    simp only [genSteps, tsListL]
    exact TSOk_append (genStep_TSOk t num v s) (ih _ _ _ _)

/-- A test case — its own stamp, its steps, and its verdict stamp — is a
sorted timestamp span from its entry cursor to the advanced cursor. -/
theorem genCase_TSOk (ts : ℚ) (n : ℕ) (g : String) (s : RState) :
    TSOk ts (generate_test_case ts n g s).2.1
      (tsList (generate_test_case ts n g s).1) := by
  simp only [generate_test_case, generate_random_verdict, pyRandint, pyChoice,
    pyRandom, rawNat, pyUniform, RState.succ]
  set V := (if Int.fract (s.stream (s.idx + 1 + 1 + 1)) < 6 / 10 then "pass"
    else if Int.fract (s.stream (s.idx + 1 + 1 + 1)) < 85 / 100 then "fail"
    else "inconclusive") with hV
  set R := genSteps (3 + ⌊s.stream (s.idx + 1 + 1 + 1 + 1)⌋.toNat % (8 + 1 - 3))
    1 (ts + 1 / 2) V (RState.mk s.stream (s.idx + 1 + 1 + 1 + 1 + 1)) with hR
  simp only [tsList, tsListL, attrTs, List.filterMap, List.append_eq,
    tsListL_append, List.append_nil, List.nil_append]
  refine @TSOk_append ts (ts + 1 / 2) _ _ _
    (TSOk_single (le_refl ts) (by linarith)) ?_
  refine @TSOk_append (ts + 1 / 2) (R.2.1) _ _ _ ?_ ?_
  · exact hR ▸ genSteps_TSOk _ _ _ _ _
  · refine TSOk_single (le_refl _) ?_
    nlinarith [Int.fract_nonneg (R.2.2.stream R.2.2.idx)]

/-- A uniform draw from a nonempty range is at least its lower bound. -/
theorem pyUniform_lower (a b : ℚ) (h : 0 ≤ b - a) (s : RState) :
    a ≤ (pyUniform a b s).1 := by
  simp only [pyUniform, pyRandom]
  nlinarith [Int.fract_nonneg (s.stream s.idx)]

/-- Skipped tests carry no timestamps. -/
theorem tsList_skipped (t : ℚ) (n : ℕ) (s : RState) :
    tsList (generate_skipped_test t n s).1 = [] := by
  simp [generate_skipped_test, pyChoice, rawNat, RState.succ, tsList, tsListL,
    attrTs]

/-- A flat population is a sorted timestamp span. -/
theorem genFlat_TSOk (k : ℕ) : ∀ (num : ℕ) (t : ℚ) (g : String) (s : RState),
    TSOk t (genFlat k num t g s).2.1 (tsListL (genFlat k num t g s).1) := by
  induction k with
  | zero => intro num t g s; exact TSOk_nil (le_refl t)
  | succ k ih =>
    intro num t g s
    simp only [genFlat]
    split_ifs with h
    · simp only [tsListL, tsList_skipped, List.nil_append]
      refine TSOk_mono ?_ (le_refl _) (ih _ _ _ _)
      linarith [pyUniform_lower 1 5 (by norm_num)
        (generate_skipped_test t num (pyRandom s).2).2]
    · simp only [tsListL]
      refine TSOk_append (genCase_TSOk _ _ _ _) ?_
      refine TSOk_mono ?_ (le_refl _) (ih _ _ _ _)
      linarith [pyUniform_lower 1 5 (by norm_num)
        (generate_test_case t num g (pyRandom s).2).2.2]

/-- The flat tail of a group is a sorted timestamp span, provided the
title carries no timestamp. -/
theorem genGroupFlatTail_TSOk (tt : String) (title : XElem)
    (ht : tsList title = []) (current : ℚ) (s : RState) :
    TSOk current (genGroupFlatTail tt title current s).2.1
      (tsList (genGroupFlatTail tt title current s).1) := by
  simp only [genGroupFlatTail, pyRandint, rawNat, RState.succ, tsList, tsListL,
    attrTs, List.filterMap, ht, List.nil_append]
  exact genFlat_TSOk _ _ _ _ _

/-- The nested-children loop is a sorted timestamp span, provided each
child is. -/
theorem genChildrenAux_TSOk
    (gen : ℚ → GroupId → RState → XElem × ℚ × RState)
    (hg : ∀ t g s', TSOk t ((gen t g s').2.1) (tsList (gen t g s').1)) :
    ∀ (count idx : ℕ) (gid : GroupId) (t : ℚ) (s : RState),
    TSOk t (genChildrenAux gen count idx gid t s).2.1
      (tsListL (genChildrenAux gen count idx gid t s).1) := by
  intro count
  induction count with
  | zero => intro idx gid t s; exact TSOk_nil (le_refl t)
  | succ k ih =>
    intro idx gid t s
    simp only [genChildrenAux, tsListL]
    refine TSOk_append (hg _ _ _) ?_
    refine TSOk_mono ?_ (le_refl _) (ih _ _ _ _)
    linarith [pyUniform_lower 2 5 (by norm_num)
      (gen t (Sum.inr (childGroupId gid idx)) s).2.2]

/-- A generated group is a sorted timestamp span from its entry cursor to
its returned cursor. -/
theorem genGroupF_TSOk :
    ∀ (fuel : ℕ) (ts : ℚ) (gid : GroupId) (level max_level : ℕ)
      (nested : Bool) (s : RState),
    TSOk ts (genGroupF fuel ts gid level max_level nested s).2.1
      (tsList (genGroupF fuel ts gid level max_level nested s).1) := by
  intro fuel
  induction fuel with
  | zero =>
    intro ts gid level max_level nested s
    simp only [genGroupF, pyChoice, rawNat, RState.succ, pyRandom]
    split_ifs <;>
      · refine TSOk_mono (by linarith) (le_refl _)
          (genGroupFlatTail_TSOk _ _ ?_ _ _)
        simp [tsList, tsListL, attrTs]
  | succ f ih =>
    intro ts gid level max_level nested s
    simp only [genGroupF, pyChoice, rawNat, RState.succ, pyRandom, pyRandint]
    by_cases hn : nested = true ∧ level < max_level
    · simp only [if_pos hn]
      cases hd : decide (Int.fract (s.stream (s.idx + 1 + 1)) < 3 / 10) with
      | false =>
        simp only [hd, Bool.false_eq_true, if_false]
        refine TSOk_mono (by linarith) (le_refl _)
          (genGroupFlatTail_TSOk _ _ ?_ _ _)
        simp [tsList, tsListL, attrTs]
      | true =>
        simp only [hd, if_true]
        simp only [tsList, tsListL, attrTs, List.filterMap, List.nil_append]
        refine @TSOk_mono (ts + 1) ts _ _ _ (by linarith) (le_refl _) ?_
        exact genChildrenAux_TSOk _
          (fun t' g s' => ih t' g (level + 1) max_level nested s') _ _ _ _ _
    · simp only [if_neg hn]
      refine TSOk_mono (by linarith) (le_refl _)
        (genGroupFlatTail_TSOk _ _ ?_ _ _)
      simp [tsList, tsListL, attrTs]

/-- The top-level group loop is a sorted timestamp span. -/
theorem genGroups_TSOk (k : ℕ) : ∀ (num : ℕ) (t : ℚ) (nested : Bool)
    (s : RState), TSOk t (genGroups k num t nested s).2.1
      (tsListL (genGroups k num t nested s).1) := by
  induction k with
  | zero => intro num t nested s; exact TSOk_nil (le_refl t)
  | succ k ih =>
    intro num t nested s
    simp only [genGroups, tsListL, generate_test_group]
    refine TSOk_append (genGroupF_TSOk _ _ _ _ _ _ _) ?_
    refine TSOk_mono ?_ (le_refl _) (ih _ _ _ _)
    linarith [pyUniform_lower 5 15 (by norm_num)
      (genGroupF (3 + 1 - 1) t (Sum.inl num) 1 3 nested s).2.2]

/-- The one-decimal rendering of 10 is 10. -/
theorem fmt1_ten : fmt1 10 = 10 := by
  norm_num [fmt1]

/-- **C2.** For every module produced by `generate_test_module`, the
sequence of all timestamp attribute values read in document order — the
root's `0.0`, then each testcase, teststep and verdict timestamp — is
non-decreasing. -/
theorem claim_C2 (num_groups : ℤ) (nested : Bool) (seed : Option ℕ)
    (fi : ℕ) (s : RState) :
    (tsList (generate_test_module num_groups nested seed fi s)).Pairwise
      (· ≤ ·) := by
  cases seed <;>
    · simp [generate_test_module, tsList, tsListL, attrTs]
      refine ⟨fun a ha => ?_, (genGroups_TSOk _ _ _ _ _).2.1⟩
      have h1 := ((genGroups_TSOk _ _ _ _ _).2.2 a ha).1
      rw [fmt1_ten] at h1
      linarith
